import Mathlib

/-!
Shallow embedding of the auth-pkce OAuth 2.0 PKCE CLI (TypeScript) in Lean 4.

The embedding follows the source files:
  * src/utils/crypto.ts            (PKCE verifier and challenge generation)
  * src/config/manager.ts          (ConfigManager: token store, isTokenExpired)
  * src/services/oauth-client.ts   (OAuthClient: authorize, callback handling,
                                    refreshToken, revokeToken)
  * src/commands/index.ts          (login/logout/refresh/status commands)
  * src/api/index.ts               (AuthPkceApi programmatic surface)
  * src/lib/auth-pkce-lib.ts       (AuthPKCELibrary getAccessToken/getBearerToken)

Effects are made explicit: file-system storage becomes a `Store` record that is
threaded through the operations; network calls, endpoint discovery and the
randomness source become parameters (the outcome of an HTTP call is an
`Except String _` value supplied by the environment); JavaScript exceptions
become `Except String _`; `Date.now()` becomes an explicit `now : Int`
parameter (epoch milliseconds).  JavaScript string truthiness (`!s` is true
for the empty string and for undefined) is modelled by `strTruthy` on
`Option String`.
-/

namespace AuthPkce

/-- Token response returned by the provider token endpoint
(interface TokenResponse in src/types/index.ts). `expires_in` is a JSON
number, modelled as `Int`. -/
structure TokenResponse where
  access_token : String
  refresh_token : Option String := none
  id_token : Option String := none
  token_type : String
  expires_in : Int
  scope : Option String := none
  deriving Repr, DecidableEq

/-- Locally persisted token record (interface StoredTokens in
src/types/index.ts). `expiresAt` is an absolute epoch-millisecond instant. -/
structure StoredTokens where
  accessToken : String
  refreshToken : Option String := none
  idToken : Option String := none
  expiresAt : Int
  tokenType : String
  scope : Option String := none
  deriving Repr, DecidableEq

/-- Provider configuration (interface CLIConfig / OAuthConfig in
src/types/index.ts); optional endpoints are populated by discovery. -/
structure CLIConfig where
  clientId : String
  baseUrl : String
  redirectUri : String
  scope : String
  authorizationEndpoint : Option String := none
  tokenEndpoint : Option String := none
  userinfoEndpoint : Option String := none
  endSessionEndpoint : Option String := none
  deriving Repr, DecidableEq

/-- The on-disk state owned by ConfigManager: the configuration file and the
tokens file under the config directory (absent files are `none`). -/
structure Store where
  config : Option CLIConfig := none
  tokens : Option StoredTokens := none
  deriving Repr, DecidableEq

/-- Pending authorization state stored by OAuthClient
(interface AuthState in src/types/index.ts). -/
structure AuthState where
  state : String
  codeVerifier : String
  redirectUri : String
  deriving Repr, DecidableEq

/-- JavaScript truthiness of a possibly-absent string: `undefined`/missing and
the empty string are falsy, every other string is truthy. -/
def strTruthy : Option String → Bool
  | none => false
  | some s => !s.isEmpty

/-- JavaScript `a || b` on possibly-absent strings (used for
`newTokens.refresh_token || tokens.refreshToken` in the refresh paths). -/
def strOr (a b : Option String) : Option String :=
  if strTruthy a then a else b

/-- ConfigManager.isTokenExpired (src/config/manager.ts):
`return Date.now() >= tokens.expiresAt;`. -/
def isTokenExpired (now : Int) (tokens : StoredTokens) : Bool :=
  tokens.expiresAt ≤ now

/-! ## Crypto primitives (src/utils/crypto.ts)

`crypto.randomBytes(32)` is an external randomness source; the produced bytes
are passed in as a parameter.  `Buffer.toString('base64url')` is Node's
URL-safe base64 encoding without padding, embedded here as
`base64urlEncode`. -/

/-- The URL-safe base64 alphabet used by Node's base64url encoding. -/
def b64Alphabet : List Char :=
  "ABCDEFGHIJKLMNOPQRSTUVWXYZabcdefghijklmnopqrstuvwxyz0123456789-_".toList

/-- Character of the URL-safe base64 alphabet at a 6-bit index. -/
def b64urlChar (n : Nat) : Char := b64Alphabet.getD n 'A'

/-- Node `Buffer.toString('base64url')`: URL-safe base64 without padding.
Groups of three bytes yield four characters; a final group of two bytes
yields three characters and a final single byte yields two. -/
def base64urlEncode : List Nat → List Char
  | [] => []
  | [b1] => [b64urlChar (b1 / 4), b64urlChar (b1 % 4 * 16)]
  | [b1, b2] =>
    [b64urlChar (b1 / 4), b64urlChar (b1 % 4 * 16 + b2 / 16), b64urlChar (b2 % 16 * 4)]
  | b1 :: b2 :: b3 :: rest =>
    b64urlChar (b1 / 4) :: b64urlChar (b1 % 4 * 16 + b2 / 16) ::
      b64urlChar (b2 % 16 * 4 + b3 / 64) :: b64urlChar (b3 % 64) :: base64urlEncode rest

/-- generateCodeVerifier (src/utils/crypto.ts):
`crypto.randomBytes(32).toString('base64url')`, with the 32 random bytes
supplied explicitly. -/
def generateCodeVerifier (randomBytes : List Nat) : String :=
  ⟨base64urlEncode randomBytes⟩

/-- PKCE challenge object (interface PKCEChallenge in src/types/index.ts). -/
structure PKCEChallenge where
  codeVerifier : String
  codeChallenge : String
  codeChallengeMethod : String
  deriving Repr, DecidableEq

/-- generateCodeChallenge (src/utils/crypto.ts): SHA-256 digest of the
verifier, base64url encoded.  SHA-256 is an external primitive, passed in as
the function `sha256`. -/
def generateCodeChallenge (sha256 : String → List Nat) (codeVerifier : String) : String :=
  ⟨base64urlEncode (sha256 codeVerifier)⟩

/-- generatePKCEChallenge (src/utils/crypto.ts): composes verifier and
challenge with method fixed to S256. -/
def generatePKCEChallenge (sha256 : String → List Nat) (randomBytes : List Nat) : PKCEChallenge :=
  let codeVerifier := generateCodeVerifier randomBytes
  let codeChallenge := generateCodeChallenge sha256 codeVerifier
  { codeVerifier := codeVerifier
    codeChallenge := codeChallenge
    codeChallengeMethod := "S256" }

/-- Membership test for the URL-safe base64 alphabet (letters, digits,
hyphen, underscore; no plus, slash or equals sign). -/
def isUrlSafeB64Char (c : Char) : Bool :=
  ('A' ≤ c && c ≤ 'Z') || ('a' ≤ c && c ≤ 'z') || ('0' ≤ c && c ≤ '9') || c = '-' || c = '_'

/-! ## OAuthClient: authorization state map and callback handling
(src/services/oauth-client.ts) -/

/-- The OAuthClient field `authState : Map of string to AuthState`, embedded
as an association list keyed by the `state` string. -/
abbrev AuthStateMap := List (String × AuthState)

/-- `authState.get(k)`. -/
def mapGet (m : AuthStateMap) (k : String) : Option AuthState :=
  (m.find? (fun p => p.1 = k)).map (fun p => p.2)

/-- `authState.set(k, v)`: replaces an existing binding for `k`, otherwise
appends one. -/
def mapSet (m : AuthStateMap) (k : String) (v : AuthState) : AuthStateMap :=
  if (m.find? (fun p => p.1 = k)).isSome then
    m.map (fun p => if p.1 = k then (k, v) else p)
  else
    m ++ [(k, v)]

/-- `authState.delete(k)`. -/
def mapDelete (m : AuthStateMap) (k : String) : AuthStateMap :=
  m.filter (fun p => p.1 ≠ k)

/-- Query parameters of the single HTTP request received by the local
callback listener (`req.query` in the express handler): each parameter is
either absent or a string. -/
structure CallbackQuery where
  code : Option String := none
  state : Option String := none
  error : Option String := none
  error_description : Option String := none
  deriving Repr, DecidableEq

/-- Error message built for an OAuth error callback:
the template OAuth error: error - error_description, the description part
present only when `error_description` is truthy. -/
def oauthCallbackErrorMsg (q : CallbackQuery) : String :=
  "OAuth error: " ++ q.error.getD "" ++
    (if strTruthy q.error_description then " - " ++ q.error_description.getD "" else "")

/-- Body of the express GET handler inside
OAuthClient.handleAuthorizationCallback (src/services/oauth-client.ts,
lines 224-266), as a function of the received query and the current
`authState` map.  `Except.error` is a `reject(new Error(...))` of the
callback promise, `Except.ok` is `resolve(code)`.  The JavaScript guards
`if (error)` and `if (!code || !state)` use string truthiness, so an empty
string counts as missing. -/
def handleCallbackRequest (m : AuthStateMap) (q : CallbackQuery) : Except String String :=
  if strTruthy q.error then
    .error (oauthCallbackErrorMsg q)
  else if !strTruthy q.code || !strTruthy q.state then
    .error "Missing authorization code or state parameter"
  else
    match mapGet m (q.state.getD "") with
    | none => .error "Invalid state parameter"
    | some _ => .ok (q.code.getD "")

/-- Outcome of OAuthClient.ensureEndpoints: either the (possibly
discovery-updated) configuration, or a thrown discovery error. -/
abbrev EnsureOutcome := Except String CLIConfig

/-- Body of the `try` block of OAuthClient.revokeToken
(src/services/oauth-client.ts, lines 139-173): run ensureEndpoints (which
may throw a discovery error); if no revocation endpoint is configured, log a
warning and return; otherwise POST to it (outcome `post`, which may throw).
-/
def revokeTokenTry (ensure : EnsureOutcome) (post : Except String Unit) :
    Except String Unit := do
  let cfg ← ensure
  match cfg.endSessionEndpoint with
  | none => return ()
  | some _ => post

/-- OAuthClient.revokeToken: the whole body is wrapped in
try/catch; the catch only logs (Token revocation failed, but continuing with
logout) and deliberately does not rethrow. -/
def revokeToken (ensure : EnsureOutcome) (post : Except String Unit) :
    Except String Unit :=
  match revokeTokenTry ensure post with
  | .ok _ => .ok ()
  | .error _ => .ok ()

/-- Environment of one OAuthClient.authorize run: the ensureEndpoints
outcome, the single callback request received by the listener (`none` means
the 5-minute timeout fired without any callback), and the outcome of the
token-endpoint POST in exchangeCodeForTokens. -/
structure AuthorizeEnv where
  ensure : EnsureOutcome
  callbackQuery : Option CallbackQuery
  exchange : Except String TokenResponse
  deriving Repr

/-- OAuthClient.authorize (src/services/oauth-client.ts, lines 22-61),
threading the `authState` map.  The PKCE verifier and the random `state`
string are supplied by the caller (they come from the randomness source).
Steps of the source, in order: ensureEndpoints; `authState.set(state, ...)`;
handleAuthorizationCallback (whose listener-start callback performs a second
identical `authState.set` and whose request handler is
`handleCallbackRequest`, with a timeout rejection when no request arrives);
exchangeCodeForTokens; `authState.delete(state)`; return tokens.  The
surrounding catch logs and rethrows, leaving the map untouched on failure.
-/
def authorize (m : AuthStateMap) (state codeVerifier redirectUri : String)
    (env : AuthorizeEnv) : Except String TokenResponse × AuthStateMap :=
  match env.ensure with
  | .error e => (.error e, m)
  | .ok _ =>
    let entry : AuthState :=
      { state := state, codeVerifier := codeVerifier, redirectUri := redirectUri }
    let m1 := mapSet m state entry
    let m2 := mapSet m1 state entry
    let cbResult : Except String String :=
      match env.callbackQuery with
      | none => .error "Authentication timeout - no callback received within 5 minutes"
      | some q => handleCallbackRequest m2 q
    match cbResult with
    | .error e => (.error e, m2)
    | .ok _code =>
      match env.exchange with
      | .error e => (.error e, m2)
      | .ok tokens => (.ok tokens, mapDelete m2 state)

/-! ## CLI commands (src/commands/index.ts)

The commands read the config and tokens files through ConfigManager; the
file system is modelled as reliable here (loads return the `Store` fields,
saves and clears update them), while the network-facing calls are outcome
parameters.  `process.exit(1)` on a caught error is modelled as
`Except.error`. -/

/-- The StoredTokens object literal built by loginCommand
(src/commands/index.ts, lines 390-397). -/
def loginStoredTokens (now : Int) (tokens : TokenResponse) : StoredTokens :=
  { accessToken := tokens.access_token
    refreshToken := tokens.refresh_token
    idToken := tokens.id_token
    expiresAt := now + tokens.expires_in * 1000
    tokenType := tokens.token_type
    scope := tokens.scope }

/-- The updated StoredTokens object literal built identically by
refreshCommand (src/commands/index.ts, lines 511-518) and
AuthPkceApi.refreshToken (src/api/index.ts, lines 136-143): keep the old
refresh token and scope when the response values are falsy. -/
def refreshedStoredTokens (now : Int) (newTokens : TokenResponse)
    (old : StoredTokens) : StoredTokens :=
  { accessToken := newTokens.access_token
    refreshToken := strOr newTokens.refresh_token old.refreshToken
    idToken := newTokens.id_token
    expiresAt := now + newTokens.expires_in * 1000
    tokenType := newTokens.token_type
    scope := strOr newTokens.scope old.scope }

/-- loginCommand (src/commands/index.ts, lines 376-411): requires a
configuration (else exits with No configuration found); runs
OAuthClient.authorize (outcome `authorizeOutcome`); on success stores a
StoredTokens record with `expiresAt = Date.now() + expires_in * 1000`. -/
def loginCommand (s : Store) (now : Int)
    (authorizeOutcome : Except String TokenResponse) : Except String Store :=
  match s.config with
  | none => .error "No configuration found. Please run auth-pkce configure first."
  | some _ =>
    match authorizeOutcome with
    | .error e => .error e
    | .ok tokens => .ok { s with tokens := some (loginStoredTokens now tokens) }

/-- Network environment of one logoutCommand run: the ensureEndpoints and
POST outcomes of the access-token revocation call and of the refresh-token
revocation call. -/
structure LogoutEnv where
  ensureAccess : EnsureOutcome
  postAccess : Except String Unit
  ensureRefresh : EnsureOutcome
  postRefresh : Except String Unit
  deriving Repr

/-- logoutCommand (src/commands/index.ts, lines 416-443): load config and
tokens; if both exist, best-effort revoke the access token (when truthy) and
the refresh token (when truthy) via OAuthClient.revokeToken; then
`configManager.clearTokens()`.  An exception escaping any awaited step
before `clearTokens` would skip the deletion (caught at the bottom and
turned into exit 1). -/
def logoutCommand (s : Store) (env : LogoutEnv) : Except String Store :=
  match s.config, s.tokens with
  | some _, some toks =>
    let r1 : Except String Unit :=
      if strTruthy (some toks.accessToken) then revokeToken env.ensureAccess env.postAccess
      else .ok ()
    match r1 with
    | .error e => .error e
    | .ok _ =>
      let r2 : Except String Unit :=
        if strTruthy toks.refreshToken then revokeToken env.ensureRefresh env.postRefresh
        else .ok ()
      match r2 with
      | .error e => .error e
      | .ok _ => .ok { s with tokens := none }
  | _, _ => .ok { s with tokens := none }

/-- refreshCommand (src/commands/index.ts, lines 490-530): requires config
and tokens (else Not authenticated), requires a truthy refresh token (else
No refresh token available); runs OAuthClient.refreshToken (outcome
`refreshCall`); on success stores the updated record, keeping the old
refresh token when the response has no truthy new one
(`newTokens.refresh_token || tokens.refreshToken`) and likewise for the
scope. -/
def refreshCommand (s : Store) (now : Int)
    (refreshCall : Except String TokenResponse) : Except String Store :=
  match s.config, s.tokens with
  | some _, some toks =>
    if !strTruthy toks.refreshToken then
      .error "No refresh token available. Please run auth-pkce login again."
    else
      match refreshCall with
      | .error e => .error ("Token refresh failed: " ++ e)
      | .ok newTokens =>
        .ok { s with tokens := some (refreshedStoredTokens now newTokens toks) }
  | _, _ => .error "Not authenticated. Please run auth-pkce login first."

/-! ## AuthPKCELibrary accessors (src/lib/auth-pkce-lib.ts) -/

/-- AuthPKCELibrary.getAccessToken (src/lib/auth-pkce-lib.ts, lines
246-263): loads config and tokens, throws Not authenticated when either is
missing, throws Access token expired when `isTokenExpired`, otherwise
returns the stored access token.  The store is returned unchanged: the
method performs no write. -/
def libGetAccessToken (now : Int) (s : Store) : Except String String × Store :=
  (match s.config, s.tokens with
   | some _, some toks =>
     if isTokenExpired now toks then
       .error "Access token expired. Please run refresh or login."
     else
       .ok toks.accessToken
   | _, _ => .error "Not authenticated. Please run login first.", s)

/-- AuthPKCELibrary.getBearerToken (src/lib/auth-pkce-lib.ts, lines
268-271): prepends Bearer and a space to getAccessToken's result. -/
def libGetBearerToken (now : Int) (s : Store) : Except String String × Store :=
  let (r, s') := libGetAccessToken now s
  (r.map (fun accessToken => "Bearer " ++ accessToken), s')

/-! ## AuthPkceApi programmatic surface (src/api/index.ts)

Every public method wraps its body in try/catch and returns `false` or
`null` on error.  The environment supplies the failure behaviour of the
ConfigManager file operations and the outcome of the refresh HTTP call
(`new OAuthClient(config).refreshToken(...)`, whose internal
ensureEndpoints/discovery failure is also one of its error outcomes). -/

structure ApiEnv where
  /-- When `some e`, `configManager.loadConfig()` throws `e`. -/
  loadConfigFail : Option String := none
  /-- When `some e`, `configManager.loadTokens()` throws `e`. -/
  loadTokensFail : Option String := none
  /-- When `some e`, `configManager.saveTokens(...)` throws `e` (without
  writing). -/
  saveTokensFail : Option String := none
  /-- Outcome of `oauthClient.refreshToken(refreshToken)`: a TokenResponse,
  or a thrown refresh/discovery/network error. -/
  refreshCall : Except String TokenResponse := .error "network unavailable"
  /-- `Date.now()` during the run, epoch milliseconds. -/
  now : Int := 0
  /-- The `autoRefresh` option (defaults to true in the constructor). -/
  autoRefresh : Bool := true
  deriving Repr

/-- `configManager.loadConfig()` as seen by the API layer. -/
def loadConfigE (env : ApiEnv) (s : Store) : Except String (Option CLIConfig) :=
  match env.loadConfigFail with
  | some e => .error e
  | none => .ok s.config

/-- `configManager.loadTokens()` as seen by the API layer. -/
def loadTokensE (env : ApiEnv) (s : Store) : Except String (Option StoredTokens) :=
  match env.loadTokensFail with
  | some e => .error e
  | none => .ok s.tokens

/-- `configManager.saveTokens(t)` as seen by the API layer. -/
def saveTokensE (env : ApiEnv) (s : Store) (t : StoredTokens) : Except String Store :=
  match env.saveTokensFail with
  | some e => .error e
  | none => .ok { s with tokens := some t }

/-- Body of the `try` block of AuthPkceApi.refreshToken (src/api/index.ts,
lines 121-152): load config and tokens; return false when config, tokens or
the refresh token is falsy; run the refresh HTTP call; store the updated
record (old refresh token and scope kept when the response values are
falsy, `expiresAt = Date.now() + expires_in * 1000`); return true. -/
def apiRefreshTokenExc (env : ApiEnv) (s : Store) : Except String (Bool × Store) := do
  let config ← loadConfigE env s
  let tokens ← loadTokensE env s
  match config, tokens with
  | some _, some toks =>
    if !strTruthy toks.refreshToken then
      return (false, s)
    else do
      let newTokens ← env.refreshCall
      let s' ← saveTokensE env s (refreshedStoredTokens env.now newTokens toks)
      return (true, s')
  | _, _ => return (false, s)

/-- AuthPkceApi.refreshToken with its catch: on any thrown error the method
returns false; no error path writes to the store, so the store is unchanged
there. -/
def apiRefreshTokenRun (env : ApiEnv) (s : Store) : Bool × Store :=
  match apiRefreshTokenExc env s with
  | .ok r => r
  | .error _ => (false, s)

/-- Public boolean result of AuthPkceApi.refreshToken. -/
def apiRefreshToken (env : ApiEnv) (s : Store) : Bool :=
  (apiRefreshTokenRun env s).1

/-- Body of the `try` block of AuthPkceApi.isAuthenticated (src/api/index.ts,
lines 24-46): false when config or tokens are missing; when the record is
expired, return the result of `this.refreshToken()` if autoRefresh is on and
a refresh token is present (that call catches its own errors), else false;
otherwise true. -/
def apiIsAuthenticatedExc (env : ApiEnv) (s : Store) : Except String (Bool × Store) := do
  let config ← loadConfigE env s
  let tokens ← loadTokensE env s
  match config, tokens with
  | some _, some toks =>
    if isTokenExpired env.now toks then
      if env.autoRefresh && strTruthy toks.refreshToken then
        return apiRefreshTokenRun env s
      else
        return (false, s)
    else
      return (true, s)
  | _, _ => return (false, s)

/-- AuthPkceApi.isAuthenticated with its catch: false on any thrown error. -/
def apiIsAuthenticated (env : ApiEnv) (s : Store) : Bool :=
  match apiIsAuthenticatedExc env s with
  | .ok r => r.1
  | .error _ => false

/-- JavaScript `x || null` on a possibly-absent string
(for `newTokens?.accessToken || null`). -/
def strOrNull (a : Option String) : Option String :=
  if strTruthy a then a else none

/-- Body of the `try` block of AuthPkceApi.getAccessToken (src/api/index.ts,
lines 51-76): null when no tokens; when expired, attempt refresh if
autoRefresh is on and a refresh token is present, and on success reload and
return the new access token (`|| null`); null otherwise; when not expired
return the stored access token. -/
def apiGetAccessTokenExc (env : ApiEnv) (s : Store) :
    Except String (Option String × Store) := do
  let tokens ← loadTokensE env s
  match tokens with
  | none => return (none, s)
  | some toks =>
    if isTokenExpired env.now toks then
      if env.autoRefresh && strTruthy toks.refreshToken then
        let (refreshed, s') := apiRefreshTokenRun env s
        if refreshed then do
          let newTokens ← loadTokensE env s'
          return (strOrNull (newTokens.map (fun t => t.accessToken)), s')
        else
          return (none, s')
      else
        return (none, s)
    else
      return (some toks.accessToken, s)

/-- AuthPkceApi.getAccessToken with its catch: null on any thrown error. -/
def apiGetAccessToken (env : ApiEnv) (s : Store) : Option String :=
  match apiGetAccessTokenExc env s with
  | .ok r => r.1
  | .error _ => none

/-- Body of the `try` block of AuthPkceApi.getTokenInfo (src/api/index.ts,
lines 81-104): null when no tokens; when expired and autoRefresh is on and
a refresh token is present, attempt refresh and on success return the
reloaded record; otherwise return the (possibly stale) loaded record. -/
def apiGetTokenInfoExc (env : ApiEnv) (s : Store) :
    Except String (Option StoredTokens × Store) := do
  let tokens ← loadTokensE env s
  match tokens with
  | none => return (none, s)
  | some toks =>
    if isTokenExpired env.now toks && (env.autoRefresh && strTruthy toks.refreshToken) then
      let (refreshed, s') := apiRefreshTokenRun env s
      if refreshed then do
        let reloaded ← loadTokensE env s'
        return (reloaded, s')
      else
        return (some toks, s')
    else
      return (some toks, s)

/-- AuthPkceApi.getTokenInfo with its catch: null on any thrown error. -/
def apiGetTokenInfo (env : ApiEnv) (s : Store) : Option StoredTokens :=
  match apiGetTokenInfoExc env s with
  | .ok r => r.1
  | .error _ => none

/-- Body of the `try` block of AuthPkceApi.hasConfiguration (src/api/index.ts,
lines 157-165): `loadConfig() !== null`. -/
def apiHasConfigurationExc (env : ApiEnv) (s : Store) : Except String Bool := do
  let config ← loadConfigE env s
  return config.isSome

/-- AuthPkceApi.hasConfiguration with its catch: false on any thrown error. -/
def apiHasConfiguration (env : ApiEnv) (s : Store) : Bool :=
  match apiHasConfigurationExc env s with
  | .ok b => b
  | .error _ => false

/-! ## Concrete sample values used to instantiate the theorems -/

/-- A sample provider configuration. -/
def cfgSample : CLIConfig :=
  { clientId := "client-1"
    baseUrl := "https://idp.example"
    redirectUri := "http://localhost:4200"
    scope := "openid profile email" }

/-- A sample non-expired token record (relative to `now = 5000`). -/
def toksFresh : StoredTokens :=
  { accessToken := "T1"
    refreshToken := some "RT1"
    expiresAt := 10000000
    tokenType := "Bearer" }

/-- A sample expired token record (relative to `now = 5000`) holding a
refresh token. -/
def toksExpired : StoredTokens :=
  { accessToken := "T0"
    refreshToken := some "RT1"
    expiresAt := 1000
    tokenType := "Bearer"
    scope := some "openid" }

/-- A sample provider token response with a one-hour lifetime and no new
refresh token. -/
def respSample : TokenResponse :=
  { access_token := "T2"
    token_type := "Bearer"
    expires_in := 3600 }

/-- A provider token response with `expires_in = 0`. -/
def respZeroExpiry : TokenResponse :=
  { access_token := "T1"
    token_type := "Bearer"
    expires_in := 0 }

/-- The record loginCommand persists for `respZeroExpiry` at
`now = 1000000`. -/
def recZero : StoredTokens :=
  { accessToken := "T1"
    expiresAt := 1000000
    tokenType := "Bearer" }

/-- An API environment in which both file loads throw. -/
def envFailAll : ApiEnv :=
  { loadConfigFail := some "disk error"
    loadTokensFail := some "disk error" }

/-- An API environment at `now = 5000` whose refresh HTTP call succeeds with
`respSample`. -/
def envRefreshOK : ApiEnv :=
  { now := 5000
    refreshCall := .ok respSample }

/-- A store holding a configuration and an expired record with a refresh
token. -/
def storeExpired : Store :=
  { config := some cfgSample, tokens := some toksExpired }

/-- A store holding a configuration and a fresh record. -/
def storeFresh : Store :=
  { config := some cfgSample, tokens := some toksFresh }

/-- The store produced by a successful refreshCommand on `storeExpired` at
`now = 5000` with response `respSample`. -/
def storeRefreshed : Store :=
  { config := some cfgSample
    tokens := some (refreshedStoredTokens 5000 respSample toksExpired) }

/-- The store produced by a successful loginCommand at `now = 5000` with
response `respSample`. -/
def storeLoggedIn : Store :=
  { config := some cfgSample
    tokens := some (loginStoredTokens 5000 respSample) }

/-- A logout environment in which every revocation step throws: endpoint
discovery fails for the access-token call and the revocation POST fails for
the refresh-token call. -/
def logoutEnvThrow : LogoutEnv :=
  { ensureAccess := .error "discovery failed"
    postAccess := .error "connection refused"
    ensureRefresh := .ok { cfgSample with endSessionEndpoint := some "https://idp.example/revoke" }
    postRefresh := .error "connection refused" }

/-- An authorize environment whose callback carries an OAuth denial. -/
def envDenied : AuthorizeEnv :=
  { ensure := .ok cfgSample
    callbackQuery := some { error := some "access_denied" }
    exchange := .error "unused" }

/-- An authorize environment for a successful run with code abc123. -/
def envAuthOK : AuthorizeEnv :=
  { ensure := .ok cfgSample
    callbackQuery := some { code := some "abc123", state := some "S1" }
    exchange := .ok respSample }

end AuthPkce

namespace AuthPkce

/-! ## Helper lemmas -/

theorem revokeToken_never_throws (ensure : EnsureOutcome) (post : Except String Unit) :
    revokeToken ensure post = .ok () := by
  unfold revokeToken
  cases revokeTokenTry ensure post <;> rfl

theorem strOr_none (b : Option String) : strOr none b = b := rfl

theorem strOr_some (rt : String) (b : Option String) (h : rt ≠ "") :
    strOr (some rt) b = some rt := by
  have he : rt.isEmpty = false := by
    cases he : rt.isEmpty
    · rfl
    · exact absurd ((String.isEmpty_iff rt).mp he) h
  simp [strOr, strTruthy, he]

/-- The token record persisted by a successful loginCommand. -/
theorem loginCommand_ok (s : Store) (now : Int) (resp : TokenResponse) (s' : Store)
    (h : loginCommand s now (.ok resp) = .ok s') :
    s' = { s with tokens := some (loginStoredTokens now resp) } := by
  cases hc : s.config with
  | none => rw [loginCommand, hc] at h; cases h
  | some cfg =>
    rw [loginCommand, hc] at h
    cases h
    rfl

/-- The token record persisted by a successful refreshCommand. -/
theorem refreshCommand_ok (s : Store) (now : Int) (resp : TokenResponse) (s' : Store)
    (h : refreshCommand s now (.ok resp) = .ok s') :
    ∃ toks, s.tokens = some toks ∧ strTruthy toks.refreshToken = true ∧
      s'.config = s.config ∧
      s'.tokens = some (refreshedStoredTokens now resp toks) := by
  cases hc : s.config with
  | none => cases ht : s.tokens <;> simp [refreshCommand, hc, ht] at h
  | some cfg =>
    cases ht : s.tokens with
    | none => simp [refreshCommand, hc, ht] at h
    | some toks =>
      cases hrt : strTruthy toks.refreshToken
      · simp [refreshCommand, hc, ht, hrt] at h
      · simp [refreshCommand, hc, ht, hrt] at h
        subst h
        exact ⟨toks, rfl, hrt, rfl, rfl⟩

/-- The token record persisted by a successful AuthPkceApi.refreshToken
(body returning true). -/
theorem apiRefreshTokenExc_ok_true (env : ApiEnv) (s : Store) (resp : TokenResponse)
    (s' : Store) (hcall : env.refreshCall = .ok resp)
    (h : apiRefreshTokenExc env s = .ok (true, s')) :
    ∃ toks, s.tokens = some toks ∧ strTruthy toks.refreshToken = true ∧
      s'.config = s.config ∧
      s'.tokens = some (refreshedStoredTokens env.now resp toks) := by
  cases hlc : env.loadConfigFail with
  | some e => simp [apiRefreshTokenExc, loadConfigE, hlc, Except.bind, Bind.bind, Functor.map, Except.map] at h
  | none =>
  cases hlt : env.loadTokensFail with
  | some e =>
    simp [apiRefreshTokenExc, loadConfigE, loadTokensE, hlc, hlt, Except.bind, Bind.bind, Functor.map, Except.map] at h
  | none =>
  cases hc : s.config with
  | none =>
    cases ht : s.tokens <;>
      simp [apiRefreshTokenExc, loadConfigE, loadTokensE, hlc, hlt, hc, ht,
        Except.bind, Bind.bind, Functor.map, Except.map, pure, Except.pure] at h
  | some cfg =>
  cases ht : s.tokens with
  | none =>
    simp [apiRefreshTokenExc, loadConfigE, loadTokensE, hlc, hlt, hc, ht,
      Except.bind, Bind.bind, Functor.map, Except.map, pure, Except.pure] at h
  | some toks =>
  cases hrt : strTruthy toks.refreshToken
  · simp [apiRefreshTokenExc, loadConfigE, loadTokensE, hlc, hlt, hc, ht, hrt,
      Except.bind, Bind.bind, Functor.map, Except.map, pure, Except.pure] at h
  · cases hsv : env.saveTokensFail with
    | some e =>
      simp [apiRefreshTokenExc, loadConfigE, loadTokensE, saveTokensE, hlc, hlt, hc, ht,
        hrt, hsv, hcall, Except.bind, Bind.bind, Functor.map, Except.map, pure, Except.pure] at h
    | none =>
      simp [apiRefreshTokenExc, loadConfigE, loadTokensE, saveTokensE, hlc, hlt, hc,
        ht, hrt, hsv, hcall, Except.bind, Bind.bind, Functor.map, Except.map, pure,
        Except.pure] at h
      subst h
      exact ⟨toks, rfl, hrt, rfl, rfl⟩

/-! ## Claims -/

/-- C8: For every token record and every current time, isTokenExpired
returns true if and only if the current time is at least `expiresAt`; in
particular the exactly-equal boundary counts as expired and a strictly
future `expiresAt` gives false. -/
theorem C8_isTokenExpired_boundary (now : Int) (tokens : StoredTokens) :
    (isTokenExpired now tokens = true ↔ tokens.expiresAt ≤ now) ∧
    isTokenExpired tokens.expiresAt tokens = true ∧
    (now < tokens.expiresAt → isTokenExpired now tokens = false) := by
  refine ⟨?_, ?_, ?_⟩
  · simp [isTokenExpired]
  · simp [isTokenExpired]
  · intro h
    simp only [isTokenExpired, decide_eq_false_iff_not, not_le]
    exact h

/-- Witness for C8 at a concrete boundary instant. -/
theorem C8_witness :
    isTokenExpired 5000 toksFresh = false :=
  (C8_isTokenExpired_boundary 5000 toksFresh).2.2 (by decide)

/-- C1: Whenever a configuration and a token record exist, logoutCommand
succeeds and removes the token record, for every outcome of the revocation
calls (all their failures, including ensureEndpoints discovery failures,
are caught inside revokeToken and never propagate). -/
theorem C1_logout_clears_tokens (s : Store) (env : LogoutEnv)
    (cfg : CLIConfig) (toks : StoredTokens)
    (hc : s.config = some cfg) (ht : s.tokens = some toks) :
    logoutCommand s env = .ok { s with tokens := none } ∧
    ∀ s', logoutCommand s env = .ok s' → s'.tokens = none := by
  have hmain : logoutCommand s env = .ok { s with tokens := none } := by
    unfold logoutCommand
    rw [hc, ht]
    simp only [revokeToken_never_throws, ite_self]
  refine ⟨hmain, fun s' h => ?_⟩
  rw [hmain] at h
  cases h
  rfl

/-- Witness for C1: a store with configuration and tokens, in an
environment where every revocation step throws; the record is still
deleted. -/
theorem C1_witness :
    logoutCommand storeFresh logoutEnvThrow = .ok { storeFresh with tokens := none } :=
  (C1_logout_clears_tokens storeFresh logoutEnvThrow cfgSample toksFresh rfl rfl).1

/-- C3: The library accessors return the stored access token, respectively
Bearer plus the token, when a configuration exists and the record is not
expired; both fail when the record is absent or expired (and when the
configuration is absent); they never refresh: the store is returned
unchanged in every case. -/
theorem C3_lib_accessors (now : Int) (s : Store) :
    (∀ cfg toks, s.config = some cfg → s.tokens = some toks →
      isTokenExpired now toks = false →
      libGetAccessToken now s = (.ok toks.accessToken, s) ∧
      libGetBearerToken now s = (.ok ("Bearer " ++ toks.accessToken), s)) ∧
    (s.config = none ∨ s.tokens = none →
      (∃ e, (libGetAccessToken now s).1 = .error e) ∧
      (∃ e, (libGetBearerToken now s).1 = .error e)) ∧
    (∀ toks, s.tokens = some toks → isTokenExpired now toks = true →
      (∃ e, (libGetAccessToken now s).1 = .error e) ∧
      (∃ e, (libGetBearerToken now s).1 = .error e)) ∧
    (libGetAccessToken now s).2 = s ∧ (libGetBearerToken now s).2 = s := by
  refine ⟨?_, ?_, ?_, ?_, ?_⟩
  · intro cfg toks hc ht hexp
    simp [libGetBearerToken, libGetAccessToken, hc, ht, hexp, Except.map]
  · rintro (hc | ht)
    · refine ⟨?_, ?_⟩ <;> cases h2 : s.tokens <;>
        simp [libGetBearerToken, libGetAccessToken, hc, h2, Except.map]
    · refine ⟨?_, ?_⟩ <;> cases h1 : s.config <;>
        simp [libGetBearerToken, libGetAccessToken, h1, ht, Except.map]
  · intro toks ht hexp
    refine ⟨?_, ?_⟩ <;> cases h1 : s.config <;>
      simp [libGetBearerToken, libGetAccessToken, h1, ht, hexp, Except.map]
  · rfl
  · rfl

/-- Witness for C3 at a concrete fresh store. -/
theorem C3_witness :
    libGetBearerToken 5000 storeFresh = (.ok "Bearer T1", storeFresh) :=
  ((C3_lib_accessors 5000 storeFresh).1 cfgSample toksFresh rfl rfl (by decide)).2

/-- C10: Every AuthPkceApi accessor catches internal errors: whenever its
body throws, the public method returns false or null instead of propagating
the exception. -/
theorem C10_api_total (env : ApiEnv) (s : Store) :
    ((∃ e, apiIsAuthenticatedExc env s = .error e) → apiIsAuthenticated env s = false) ∧
    ((∃ e, apiGetAccessTokenExc env s = .error e) → apiGetAccessToken env s = none) ∧
    ((∃ e, apiGetTokenInfoExc env s = .error e) → apiGetTokenInfo env s = none) ∧
    ((∃ e, apiRefreshTokenExc env s = .error e) → apiRefreshToken env s = false) ∧
    ((∃ e, apiHasConfigurationExc env s = .error e) → apiHasConfiguration env s = false) := by
  refine ⟨?_, ?_, ?_, ?_, ?_⟩
  · rintro ⟨e, he⟩; rw [apiIsAuthenticated, he]
  · rintro ⟨e, he⟩; rw [apiGetAccessToken, he]
  · rintro ⟨e, he⟩; rw [apiGetTokenInfo, he]
  · rintro ⟨e, he⟩; rw [apiRefreshToken, apiRefreshTokenRun, he]
  · rintro ⟨e, he⟩; rw [apiHasConfiguration, he]

/-- Witness for C10: in an environment where both file loads throw, every
accessor body throws and every public method returns its fallback value. -/
theorem C10_witness :
    apiIsAuthenticated envFailAll storeFresh = false ∧
    apiGetAccessToken envFailAll storeFresh = none ∧
    apiGetTokenInfo envFailAll storeFresh = none ∧
    apiRefreshToken envFailAll storeFresh = false ∧
    apiHasConfiguration envFailAll storeFresh = false := by
  obtain ⟨h1, h2, h3, h4, h5⟩ := C10_api_total envFailAll storeFresh
  exact ⟨h1 ⟨"disk error", rfl⟩, h2 ⟨"disk error", rfl⟩, h3 ⟨"disk error", rfl⟩,
    h4 ⟨"disk error", rfl⟩, h5 ⟨"disk error", rfl⟩⟩

/-- C4: when the file loads succeed, isAuthenticated is false when the
configuration or the token record is missing, true when the record is not
expired, and equal to the boolean outcome of the transparent refresh
attempt when the record is expired while auto-refresh is enabled and a
refresh token is present (false when either of those fails to hold); in
particular an expired record with a refresh token yields true after a
successful refresh. -/
theorem C4_isAuthenticated_spec (env : ApiEnv) (s : Store)
    (hc : env.loadConfigFail = none) (ht : env.loadTokensFail = none) :
    ((s.config = none ∨ s.tokens = none) → apiIsAuthenticated env s = false) ∧
    (∀ cfg toks, s.config = some cfg → s.tokens = some toks →
      (isTokenExpired env.now toks = false → apiIsAuthenticated env s = true) ∧
      (isTokenExpired env.now toks = true →
        apiIsAuthenticated env s =
          (env.autoRefresh && strTruthy toks.refreshToken && apiRefreshToken env s))) := by
  constructor
  · rintro (h | h)
    · cases h2 : s.tokens <;>
        simp [apiIsAuthenticated, apiIsAuthenticatedExc, loadConfigE, loadTokensE, hc, ht,
          h, h2, Except.bind, Bind.bind, pure, Except.pure]
    · cases h1 : s.config <;>
        simp [apiIsAuthenticated, apiIsAuthenticatedExc, loadConfigE, loadTokensE, hc, ht,
          h, h1, Except.bind, Bind.bind, pure, Except.pure]
  · intro cfg toks h1 h2
    constructor
    · intro hexp
      simp [apiIsAuthenticated, apiIsAuthenticatedExc, loadConfigE, loadTokensE, hc, ht,
        h1, h2, hexp, Except.bind, Bind.bind, pure, Except.pure]
    · intro hexp
      cases har : (env.autoRefresh && strTruthy toks.refreshToken)
      · simp [apiIsAuthenticated, apiIsAuthenticatedExc, loadConfigE, loadTokensE, hc, ht,
          h1, h2, hexp, har, Except.bind, Bind.bind, pure, Except.pure]
      · simp [apiIsAuthenticated, apiIsAuthenticatedExc, loadConfigE, loadTokensE, hc, ht,
          h1, h2, hexp, har, apiRefreshToken, Except.bind, Bind.bind, pure, Except.pure]

/-- Witness for C4: end-to-end scenario 4 — a stored record with expiresAt
in the past and a refresh token, with a succeeding refresh call, yields
true. -/
theorem C4_witness : apiIsAuthenticated envRefreshOK storeExpired = true := by
  have h :=
    ((C4_isAuthenticated_spec envRefreshOK storeExpired rfl rfl).2 cfgSample toksExpired
      rfl rfl).2 (by decide)
  rw [h]
  decide

/-- Field behaviour of the updated record shared by both refresh paths. -/
theorem refreshedStoredTokens_fields (now : Int) (resp : TokenResponse)
    (old : StoredTokens) :
    (resp.refresh_token = none →
      (refreshedStoredTokens now resp old).refreshToken = old.refreshToken) ∧
    (∀ rt, resp.refresh_token = some rt → rt ≠ "" →
      (refreshedStoredTokens now resp old).refreshToken = some rt) ∧
    (resp.scope = none → (refreshedStoredTokens now resp old).scope = old.scope) := by
  refine ⟨fun h => ?_, fun rt h hne => ?_, fun h => ?_⟩
  · simp [refreshedStoredTokens, h, strOr_none]
  · simp [refreshedStoredTokens, h, strOr_some rt _ hne]
  · simp [refreshedStoredTokens, h, strOr_none]

/-- C7: a successful refresh — through the CLI refreshCommand or through
AuthPkceApi.refreshToken — persists a record that keeps the prior refresh
token when the response omits refresh_token, stores the new value when a
non-empty one is included, and keeps the prior scope when the response
omits scope. -/
theorem C7_refresh_preserves_refresh_token (s : Store) (now : Int)
    (resp : TokenResponse) (env : ApiEnv) (s1 s2 : Store) :
    (refreshCommand s now (.ok resp) = .ok s1 →
      ∃ toks rec, s.tokens = some toks ∧ s1.tokens = some rec ∧
        (resp.refresh_token = none → rec.refreshToken = toks.refreshToken) ∧
        (∀ rt, resp.refresh_token = some rt → rt ≠ "" → rec.refreshToken = some rt) ∧
        (resp.scope = none → rec.scope = toks.scope)) ∧
    (env.refreshCall = .ok resp → apiRefreshTokenExc env s = .ok (true, s2) →
      ∃ toks rec, s.tokens = some toks ∧ s2.tokens = some rec ∧
        (resp.refresh_token = none → rec.refreshToken = toks.refreshToken) ∧
        (∀ rt, resp.refresh_token = some rt → rt ≠ "" → rec.refreshToken = some rt) ∧
        (resp.scope = none → rec.scope = toks.scope)) := by
  constructor
  · intro h
    obtain ⟨toks, hts, -, -, hrec⟩ := refreshCommand_ok s now resp s1 h
    obtain ⟨f1, f2, f3⟩ := refreshedStoredTokens_fields now resp toks
    exact ⟨toks, refreshedStoredTokens now resp toks, hts, hrec, f1, f2, f3⟩
  · intro hcall h
    obtain ⟨toks, hts, -, -, hrec⟩ := apiRefreshTokenExc_ok_true env s resp s2 hcall h
    obtain ⟨f1, f2, f3⟩ := refreshedStoredTokens_fields env.now resp toks
    exact ⟨toks, refreshedStoredTokens env.now resp toks, hts, hrec, f1, f2, f3⟩

/-- Witness for C7: refreshing `storeExpired` with `respSample` (which has
no refresh_token and no scope) keeps the old values. -/
theorem C7_witness :
    ∃ toks rec, storeExpired.tokens = some toks ∧
      storeRefreshed.tokens = some rec ∧
      (respSample.refresh_token = none → rec.refreshToken = toks.refreshToken) ∧
      (∀ rt, respSample.refresh_token = some rt → rt ≠ "" → rec.refreshToken = some rt) ∧
      (respSample.scope = none → rec.scope = toks.scope) :=
  (C7_refresh_preserves_refresh_token storeExpired 5000 respSample envRefreshOK
    storeRefreshed storeRefreshed).1 rfl

/-- C5 counterexample: the flow accepts a provider response with
expires_in = 0; loginCommand at now = 1000000 then persists
expiresAt = 1000000, which is not strictly in the future — the record is
already expired at creation time. -/
theorem C5_counterexample :
    loginCommand { config := some cfgSample } 1000000 (.ok respZeroExpiry) =
      .ok { config := some cfgSample, tokens := some recZero } ∧
    recZero.expiresAt = 1000000 ∧
    ¬ (1000000 < recZero.expiresAt) ∧
    isTokenExpired 1000000 recZero = true := by
  refine ⟨rfl, rfl, by decide, rfl⟩

/-- C5 (amended): every successful login or refresh persists a record with
expiresAt = now + expires_in * 1000, and that instant is strictly in the
future at creation time exactly when the provider's expires_in is positive
(the flow accepts non-positive expires_in without validation). -/
theorem C5_expiresAt_formula (s : Store) (now : Int) (resp : TokenResponse)
    (env : ApiEnv) (s1 s2 s3 : Store) :
    (loginCommand s now (.ok resp) = .ok s1 →
      ∃ rec, s1.tokens = some rec ∧ rec.expiresAt = now + resp.expires_in * 1000 ∧
        (0 < resp.expires_in → now < rec.expiresAt)) ∧
    (refreshCommand s now (.ok resp) = .ok s2 →
      ∃ rec, s2.tokens = some rec ∧ rec.expiresAt = now + resp.expires_in * 1000 ∧
        (0 < resp.expires_in → now < rec.expiresAt)) ∧
    (env.refreshCall = .ok resp → apiRefreshTokenExc env s = .ok (true, s3) →
      ∃ rec, s3.tokens = some rec ∧ rec.expiresAt = env.now + resp.expires_in * 1000 ∧
        (0 < resp.expires_in → env.now < rec.expiresAt)) := by
  refine ⟨?_, ?_, ?_⟩
  · intro h
    have hs := loginCommand_ok s now resp s1 h
    subst hs
    refine ⟨loginStoredTokens now resp, rfl, rfl, fun hpos => ?_⟩
    simp only [loginStoredTokens]
    omega
  · intro h
    obtain ⟨toks, -, -, -, hrec⟩ := refreshCommand_ok s now resp s2 h
    refine ⟨refreshedStoredTokens now resp toks, hrec, rfl, fun hpos => ?_⟩
    simp only [refreshedStoredTokens]
    omega
  · intro hcall h
    obtain ⟨toks, -, -, -, hrec⟩ := apiRefreshTokenExc_ok_true env s resp s3 hcall h
    refine ⟨refreshedStoredTokens env.now resp toks, hrec, rfl, fun hpos => ?_⟩
    simp only [refreshedStoredTokens]
    omega

/-- Witness for C5 (amended): login at now = 5000 with a 3600-second
lifetime persists expiresAt = 3605000, strictly in the future. -/
theorem C5_witness :
    ∃ rec, storeLoggedIn.tokens = some rec ∧
      rec.expiresAt = 5000 + respSample.expires_in * 1000 ∧
      (0 < respSample.expires_in → (5000 : Int) < rec.expiresAt) :=
  (C5_expiresAt_formula { config := some cfgSample } 5000 respSample envRefreshOK
    storeLoggedIn storeLoggedIn storeLoggedIn).1 rfl

/-- C2: a callback whose query lacks code, lacks state, or carries a state
absent from the authorization-state map is always rejected — it can never
resolve the pending authorization with a code — and, when no OAuth error
parameter is present, the rejection is the missing-parameter or the
state-mismatch error. -/
theorem C2_callback_rejected (m : AuthStateMap) (q : CallbackQuery)
    (h : q.code = none ∨ q.state = none ∨
      (∃ st, q.state = some st ∧ mapGet m st = none)) :
    (∃ e, handleCallbackRequest m q = .error e) ∧
    (∀ c, handleCallbackRequest m q ≠ .ok c) ∧
    (strTruthy q.error = false →
      handleCallbackRequest m q = .error "Missing authorization code or state parameter" ∨
      handleCallbackRequest m q = .error "Invalid state parameter") := by
  have hms : strTruthy q.code = false ∨ strTruthy q.state = false ∨
      (∃ st, q.state = some st ∧ mapGet m st = none) := by
    rcases h with h | h | h
    · exact Or.inl (by rw [h]; rfl)
    · exact Or.inr (Or.inl (by rw [h]; rfl))
    · exact Or.inr (Or.inr h)
  have key : (strTruthy q.error = true ∧
        handleCallbackRequest m q = .error (oauthCallbackErrorMsg q)) ∨
      handleCallbackRequest m q = .error "Missing authorization code or state parameter" ∨
      handleCallbackRequest m q = .error "Invalid state parameter" := by
    cases herr : strTruthy q.error
    · rw [handleCallbackRequest, if_neg (by simp [herr])]
      rcases hms with hx | hx | ⟨st, hst, hmap⟩
      · rw [if_pos (by simp [hx])]
        exact Or.inr (Or.inl rfl)
      · rw [if_pos (by simp [hx])]
        exact Or.inr (Or.inl rfl)
      · cases hcode : strTruthy q.code
        · rw [if_pos (by simp [hcode])]
          exact Or.inr (Or.inl rfl)
        · cases hstt : strTruthy q.state
          · rw [if_pos (by simp [hstt])]
            exact Or.inr (Or.inl rfl)
          · rw [if_neg (by simp [hcode, hstt]), hst]
            simp only [Option.getD_some]
            rw [hmap]
            exact Or.inr (Or.inr rfl)
    · rw [handleCallbackRequest, if_pos (by simp [herr])]
      exact Or.inl ⟨rfl, rfl⟩
  have herr2 : ∃ e, handleCallbackRequest m q = .error e := by
    rcases key with ⟨-, k⟩ | k | k <;> exact ⟨_, k⟩
  refine ⟨herr2, ?_, ?_⟩
  · intro c hcontra
    obtain ⟨e, hke⟩ := herr2
    rw [hke] at hcontra
    cases hcontra
  · intro heF
    rcases key with ⟨hT, -⟩ | k | k
    · rw [heF] at hT
      cases hT
    · exact Or.inl k
    · exact Or.inr k

/-- Witness for C2: a callback carrying a code but an unknown state is
rejected with the state-mismatch error. -/
theorem C2_witness :
    (∃ e, handleCallbackRequest [] { code := some "abc123", state := some "S9" } =
      .error e) ∧
    (∀ c, handleCallbackRequest [] { code := some "abc123", state := some "S9" } ≠
      .ok c) ∧
    (strTruthy ({ code := some "abc123", state := some "S9" } : CallbackQuery).error =
        false →
      handleCallbackRequest [] { code := some "abc123", state := some "S9" } =
        .error "Missing authorization code or state parameter" ∨
      handleCallbackRequest [] { code := some "abc123", state := some "S9" } =
        .error "Invalid state parameter") :=
  C2_callback_rejected [] { code := some "abc123", state := some "S9" }
    (Or.inr (Or.inr ⟨"S9", rfl, rfl⟩))

theorem find?_map_replace (k : String) (v : AuthState) (m : AuthStateMap)
    (h : (m.find? (fun p => p.1 = k)).isSome = true) :
    (m.map (fun p => if p.1 = k then (k, v) else p)).find? (fun p => p.1 = k) =
      some (k, v) := by
  induction m with
  | nil => simp at h
  | cons hd tl ih =>
    by_cases hk : hd.1 = k
    · simp [List.find?_cons, hk]
    · rw [List.find?_cons_of_neg _ (by simp [hk])] at h
      simp only [List.map_cons, if_neg hk]
      rw [List.find?_cons_of_neg _ (by simp [hk])]
      exact ih h

theorem mapGet_mapSet_self (m : AuthStateMap) (k : String) (v : AuthState) :
    mapGet (mapSet m k v) k = some v := by
  rw [mapSet]
  by_cases h : (m.find? (fun p => p.1 = k)).isSome = true
  · rw [if_pos h, mapGet, find?_map_replace k v m h]
    rfl
  · rw [if_neg h, mapGet, List.find?_append]
    have hnone : m.find? (fun p => decide (p.1 = k)) = none := by
      cases hf : m.find? (fun p => decide (p.1 = k))
      · rfl
      · exact absurd (by rw [hf]; rfl) h
    rw [hnone]
    simp [List.find?]

theorem mapGet_mapDelete_self (m : AuthStateMap) (k : String) :
    mapGet (mapDelete m k) k = none := by
  rw [mapGet, mapDelete]
  have hnone : (m.filter (fun p => p.1 ≠ k)).find? (fun p => decide (p.1 = k)) = none := by
    rw [List.find?_eq_none]
    intro x hx
    have hne := (List.mem_filter.mp hx).2
    simp at hne ⊢
    exact hne
  rw [hnone]
  rfl

/-- C6 counterexample: an authorization attempt whose callback carries an
OAuth denial exits with an error while its AuthorizationState entry is still
present in the map — the entry is not removed on every exit. -/
theorem C6_counterexample :
    (authorize [] "S1" "V1" "http://localhost:4200" envDenied).1 =
      .error "OAuth error: access_denied" ∧
    mapGet (authorize [] "S1" "V1" "http://localhost:4200" envDenied).2 "S1" =
      some { state := "S1", codeVerifier := "V1", redirectUri := "http://localhost:4200" } := by
  exact ⟨rfl, rfl⟩

/-- C6 (amended): the AuthorizationState entry keyed by the generated state
is deleted when the attempt completes successfully (after the token
exchange following the matching callback); on a failing exit after the
entry was recorded (OAuth-error callback, missing parameters, timeout, or
failed exchange) the entry remains in the map. -/
theorem C6_authState_lifecycle (m : AuthStateMap) (st v r : String)
    (env : AuthorizeEnv) :
    (∀ t m', authorize m st v r env = (.ok t, m') → mapGet m' st = none) ∧
    (∀ cfg, env.ensure = .ok cfg →
      ∀ e m', authorize m st v r env = (.error e, m') →
        mapGet m' st = some { state := st, codeVerifier := v, redirectUri := r }) := by
  constructor
  · intro t m' hEq
    rcases hens : env.ensure with e | cfg
    · simp only [authorize, hens] at hEq
      simp [Prod.ext_iff] at hEq
    · rcases hq : env.callbackQuery with _ | q
      · simp only [authorize, hens, hq] at hEq
        simp [Prod.ext_iff] at hEq
      · simp only [authorize, hens, hq] at hEq
        rcases hcb : handleCallbackRequest
            (mapSet (mapSet m st ⟨st, v, r⟩) st ⟨st, v, r⟩) q with ecb | code
        · simp only [hcb] at hEq
          simp [Prod.ext_iff] at hEq
        · rcases hex : env.exchange with eex | tokens
          · simp only [hcb, hex] at hEq
            simp [Prod.ext_iff] at hEq
          · simp only [hcb, hex, Prod.mk.injEq] at hEq
            rw [← hEq.2]
            exact mapGet_mapDelete_self _ st
  · intro cfg hens e m' hEq
    rcases hq : env.callbackQuery with _ | q
    · simp only [authorize, hens, hq, Prod.mk.injEq] at hEq
      rw [← hEq.2]
      exact mapGet_mapSet_self _ st _
    · simp only [authorize, hens, hq] at hEq
      rcases hcb : handleCallbackRequest
          (mapSet (mapSet m st ⟨st, v, r⟩) st ⟨st, v, r⟩) q with ecb | code
      · simp only [hcb, Prod.mk.injEq] at hEq
        rw [← hEq.2]
        exact mapGet_mapSet_self _ st _
      · rcases hex : env.exchange with eex | tokens
        · simp only [hcb, hex, Prod.mk.injEq] at hEq
          rw [← hEq.2]
          exact mapGet_mapSet_self _ st _
        · simp only [hcb, hex] at hEq
          simp [Prod.ext_iff] at hEq

/-- Witness for C6 (amended): a successful attempt deletes its entry. -/
theorem C6_witness :
    mapGet (authorize [] "S1" "V1" "http://localhost:4200" envAuthOK).2 "S1" = none :=
  (C6_authState_lifecycle [] "S1" "V1" "http://localhost:4200" envAuthOK).1 respSample
    (authorize [] "S1" "V1" "http://localhost:4200" envAuthOK).2 rfl

end AuthPkce

namespace AuthPkce

theorem base64urlEncode_length (bs : List Nat) :
    (base64urlEncode bs).length =
      4 * (bs.length / 3) + (if bs.length % 3 = 0 then 0 else bs.length % 3 + 1) := by
  induction bs using base64urlEncode.induct with
  | case1 => simp [base64urlEncode]
  | case2 b1 => simp [base64urlEncode]
  | case3 b1 b2 => simp [base64urlEncode]
  | case4 b1 b2 b3 rest ih =>
    simp only [base64urlEncode, List.length_cons, ih]
    by_cases h0 : rest.length % 3 = 0 <;>
      · have h3 : (rest.length + 1 + 1 + 1) % 3 = rest.length % 3 := by omega
        have h4 : (rest.length + 1 + 1 + 1) / 3 = rest.length / 3 + 1 := by omega
        rw [h3, h4]
        simp [h0]
        omega

theorem b64urlChar_mem (n : Nat) : b64urlChar n ∈ b64Alphabet := by
  rw [b64urlChar]
  rcases lt_or_ge n b64Alphabet.length with h | h
  · rw [List.getD_eq_getElem _ _ h]
    exact List.getElem_mem h
  · rw [List.getD_eq_default _ _ h]
    decide

theorem base64urlEncode_mem (bs : List Nat) :
    ∀ c ∈ base64urlEncode bs, c ∈ b64Alphabet := by
  induction bs using base64urlEncode.induct with
  | case1 =>
    intro c hc
    cases hc
  | case2 b1 =>
    intro c hc
    simp only [base64urlEncode, List.mem_cons, List.not_mem_nil, or_false] at hc
    rcases hc with rfl | rfl <;> exact b64urlChar_mem _
  | case3 b1 b2 =>
    intro c hc
    simp only [base64urlEncode, List.mem_cons, List.not_mem_nil, or_false] at hc
    rcases hc with rfl | rfl | rfl <;> exact b64urlChar_mem _
  | case4 b1 b2 b3 rest ih =>
    intro c hc
    simp only [base64urlEncode, List.mem_cons] at hc
    rcases hc with rfl | rfl | rfl | rfl | hc
    · exact b64urlChar_mem _
    · exact b64urlChar_mem _
    · exact b64urlChar_mem _
    · exact b64urlChar_mem _
    · exact ih c hc

theorem b64Alphabet_urlsafe : ∀ c ∈ b64Alphabet, isUrlSafeB64Char c = true := by decide

theorem b64Alphabet_no_pad :
    '+' ∉ b64Alphabet ∧ '/' ∉ b64Alphabet ∧ '=' ∉ b64Alphabet := by decide

/-- C9: every verifier generated from 32 random bytes — also the verifier
embedded in every generatePKCEChallenge result — has length 43, inside the
PKCE bound [43,128], and all its characters belong to the URL-safe base64
alphabet: no plus, slash or equals-padding character occurs. -/
theorem C9_codeVerifier_format (randomBytes : List Nat) (sha256 : String → List Nat)
    (h : randomBytes.length = 32) :
    (generateCodeVerifier randomBytes).length = 43 ∧
    (43 ≤ (generateCodeVerifier randomBytes).length ∧
      (generateCodeVerifier randomBytes).length ≤ 128) ∧
    (∀ c ∈ (generateCodeVerifier randomBytes).data, isUrlSafeB64Char c = true) ∧
    (∀ c ∈ (generateCodeVerifier randomBytes).data, c ≠ '+' ∧ c ≠ '/' ∧ c ≠ '=') ∧
    (generatePKCEChallenge sha256 randomBytes).codeVerifier =
      generateCodeVerifier randomBytes := by
  have hlen : (generateCodeVerifier randomBytes).length = 43 := by
    show (base64urlEncode randomBytes).length = 43
    rw [base64urlEncode_length, h]
    decide
  refine ⟨hlen, ⟨by omega, by omega⟩, ?_, ?_, rfl⟩
  · intro c hc
    exact b64Alphabet_urlsafe c (base64urlEncode_mem randomBytes c hc)
  · intro c hc
    have hmem := base64urlEncode_mem randomBytes c hc
    obtain ⟨h1, h2, h3⟩ := b64Alphabet_no_pad
    exact ⟨fun hEq => h1 (hEq ▸ hmem), fun hEq => h2 (hEq ▸ hmem),
      fun hEq => h3 (hEq ▸ hmem)⟩

/-- Witness for C9 at a concrete 32-byte input. -/
theorem C9_witness :
    (generateCodeVerifier (List.replicate 32 0)).length = 43 :=
  (C9_codeVerifier_format (List.replicate 32 0) (fun _ => []) (by decide)).1

end AuthPkce
